import Mathlib

/-
  Verification development for the leche fake-object generator
  (lib/leche.js): a shallow embedding of the JavaScript data model
  (values, property descriptors, prototype chains) and of the
  functions isAccessorProperty, isES5DataProperty, isES3DataProperty,
  createObject, stringifyObject, createNamedDataset, fake and
  withData, together with theorems about the behaviour of the
  fakes they build.

  Modelling conventions:
  - JavaScript functions are modelled by their call outcome: a
    function either returns a fixed value or throws a fixed error
    message.  The guarded members that leche installs genuinely
    ignore their arguments and `this`, so this is exact for them;
    for template-supplied functions it abstracts their behaviour
    to a fixed outcome.
  - Machine-level aspects (property attribute bits other than the
    data/accessor split, string interning, object identity) are not
    needed by the functions modelled here: every property that the
    embedding stores is enumerable, matching the properties the
    library itself defines (always with enumerable: true) and the
    ordinary template properties of the tests.
  - Thrown JavaScript errors are modelled as `Except String`, the
    string being the error message.
-/

namespace Leche

/-- JavaScript runtime values, as far as the library observes them:
undefined, null, booleans, numbers (integral — the library never does
arithmetic), strings, opaque plain objects, arrays, and functions
abstracted by their call outcome (return a fixed value or throw a
fixed message). -/
inductive Value where
  | undef
  | vnull
  | vbool (b : Bool)
  | vnum (n : Int)
  | vstr (s : String)
  | vobj (id : Nat)
  | varr (items : List Value)
  | vfnReturns (v : Value)
  | vfnThrows (msg : String)

/-- The typeof check the library performs: typeof v === "function". -/
def Value.isFunction : Value → Bool
  | .vfnReturns _ => true
  | .vfnThrows _ => true
  | _ => false

/-- Result of calling a value as a function.  Arguments are accepted
(so theorems can quantify over them) but, as in the modelled
behaviours, do not influence the outcome; calling a non-function is a
TypeError. -/
def callFn (f : Value) (args : List Value) : Except String Value :=
  match f, args with
  | .vfnReturns v, _ => .ok v
  | .vfnThrows msg, _ => .error msg
  | _, _ => .error "TypeError: not a function"

/-- An own-property descriptor: either a data descriptor (it has a
value field, which may itself be a function — a method) or an
accessor descriptor (getter and setter slots, no value field). -/
inductive Descr where
  | dataD (v : Value)
  | accessorD (get : Option Value) (set : Option Value)

/-- The own (enumerable) properties of one object, in insertion
order. -/
abbrev PropMap := List (String × Descr)

/-- A JavaScript object as the library sees it: the list of
own-property maps along its prototype chain.  The head of `chain` is
the object itself; the tail is the chain of prototypes. -/
structure JSObj where
  chain : List PropMap

/-- Association-list lookup by key, first match wins — the order in
which JavaScript resolves a name inside one property map. -/
def findProp {α : Type} : List (String × α) → String → Option α
  | [], _ => none
  | (k, v) :: rest, key => if k = key then some v else findProp rest key

/-- Association-list update: overwrite the first binding of the key,
or append a new binding at the end — JavaScript property-set order. -/
def setAssoc {α : Type} : List (String × α) → String → α → List (String × α)
  | [], key, nv => [(key, nv)]
  | (k, v) :: rest, key, nv =>
      if k = key then (k, nv) :: rest else (k, v) :: setAssoc rest key nv

/-- Resolve a name along a prototype chain to the first descriptor
found, as JavaScript property resolution does. -/
def findDescr : List PropMap → String → Option Descr
  | [], _ => none
  | m :: rest, key =>
      match findProp m key with
      | some d => some d
      | none => findDescr rest key

/-- object.hasOwnProperty(key): the object's own map binds the key. -/
def hasOwnProperty (o : JSObj) (key : String) : Bool :=
  match o.chain with
  | [] => false
  | m :: _ => (findProp m key).isSome

/-- Object.getOwnPropertyDescriptor(object, key). -/
def getOwnPropertyDescriptor (o : JSObj) (key : String) : Option Descr :=
  match o.chain with
  | [] => none
  | m :: _ => findProp m key

/-- Reading object[key]: resolve through the chain; a data descriptor
yields its value, an accessor runs its getter (undefined if there is
none), an unresolved name yields undefined. -/
def getProp (o : JSObj) (key : String) : Except String Value :=
  match findDescr o.chain key with
  | none => .ok Value.undef
  | some (.dataD v) => .ok v
  | some (.accessorD g _) =>
      match g with
      | none => .ok Value.undef
      | some gf => callFn gf []

/-- isAccessorProperty(object, key) from lib/leche.js: descriptor
introspection is available (ES5 environment), the key is an own
property, and its descriptor has no value field. -/
def isAccessorProperty (o : JSObj) (key : String) : Bool :=
  match getOwnPropertyDescriptor o key with
  | some (.accessorD _ _) => true
  | _ => false

/-- isES5DataProperty(object, key) from lib/leche.js: an own
descriptor with a value field whose value is not a function. -/
def isES5DataProperty (o : JSObj) (key : String) : Bool :=
  match getOwnPropertyDescriptor o key with
  | some (.dataD v) => !v.isFunction
  | _ => false

/-- isES3DataProperty(object, key) from lib/leche.js:
typeof object[key] !== "function".  The read goes through the chain
and can execute a getter, so the check can itself throw. -/
def isES3DataProperty (o : JSObj) (key : String) : Except String Bool :=
  match getProp o key with
  | .ok v => .ok (!v.isFunction)
  | .error e => .error e

/-- Error message thrown by the guarded getter of an unassigned
ES5-data slot on a fake. -/
def unexpectedUseMsg (key : String) : String :=
  "Unexpected use of property \"" ++ key ++ "\"."

/-- Error message thrown by a guarded method on a fake. -/
def unexpectedCallMsg (key : String) : String :=
  "Unexpected call to method \"" ++ key ++ "\"."

/-- Strict-mode TypeError raised when assigning through a chain to an
accessor without a setter. -/
def setterlessMsg : String :=
  "TypeError: Cannot set a property which has only a getter"

/-- An own member installed on a fake during construction.  A
dataP member is a plain writable data property (installed for
accessor-originated keys, for the ES3 fallback and for guarded
methods, whose value is the throwing function); a guarded member is
the closure-backed accessor pair of the ES5-data branch, holding its
propertyIsSet flag and propertyValue. -/
inductive FakeProp where
  | dataP (v : Value)
  | guarded (isSet : Bool) (v : Value)

/-- The object returned by fake(): its own members plus its prototype
link, which createObject(template) sets to the template itself. -/
structure Fake where
  own : List (String × FakeProp)
  template : JSObj

/-- Worker for dedupFirst: drop keys already seen, keep the first
occurrence of each new key. -/
def dedupFirstAux (seen : List String) : List String → List String
  | [] => []
  | k :: rest =>
      if k ∈ seen then dedupFirstAux seen rest
      else k :: dedupFirstAux (k :: seen) rest

/-- Remove later duplicates from a key list, keeping the first
occurrence: a for…in loop visits each name exactly once, own
properties before inherited ones. -/
def dedupFirst (l : List String) : List String :=
  dedupFirstAux [] l

/-- The keys a for…in loop over createObject(template) visits: every
key of every map along the chain, each name once, in chain order.
The freshly created fake has no own properties, so these are exactly
the enumerable keys of the template and its ancestry. -/
def forInKeys (o : JSObj) : List String :=
  dedupFirst ((o.chain.map (fun m => m.map Prod.fst)).flatten)

/-- A strict-mode assignment through a prototype chain, as performed
by the statements `fake[key] = undefined` and
`fake[key] = function...` inside fake(): if the chain resolves the key
to an accessor its setter runs (TypeError if there is none) and no own
property appears; otherwise an own data property is created. -/
def assignThroughChain (chain : List PropMap) (key : String) (v : Value) :
    Except String (Option FakeProp) :=
  match findDescr chain key with
  | some (.accessorD _ (some s)) =>
      match callFn s [v] with
      | .ok _ => .ok none
      | .error e => .error e
  | some (.accessorD _ none) => .error setterlessMsg
  | _ => .ok (some (.dataP v))

/-- One iteration of the loop inside fake(), for one key: the branch
cascade over isAccessorProperty, isES5DataProperty, isES3DataProperty
and the final typeof-function test, producing the own member the fake
receives at that key (none when an inherited setter absorbed the
assignment). -/
def buildProp (t : JSObj) (key : String) : Except String (Option FakeProp) :=
  if isAccessorProperty t key then
    -- Object.defineProperty(fake, key, value: undefined, writable,
    -- enumerable, configurable)
    .ok (some (.dataP Value.undef))
  else if isES5DataProperty t key then
    -- Object.defineProperty(fake, key, get/set closure over
    -- propertyIsSet = false and an unset propertyValue)
    .ok (some (.guarded false Value.undef))
  else
    match isES3DataProperty t key with
    | .error e => .error e
    | .ok true =>
        -- fake[key] = undefined
        assignThroughChain t.chain key Value.undef
    | .ok false =>
        -- typeof fake[key] === "function": the fake has no own member
        -- at this key yet, so the read resolves through the template
        match getProp t key with
        | .error e => .error e
        | .ok fv =>
            if fv.isFunction then
              -- fake[key] = function() throwing the unexpected-call error
              assignThroughChain t.chain key (.vfnThrows (unexpectedCallMsg key))
            else
              .ok none

/-- Run buildProp over the visited keys in order, collecting the own
members the fake ends up with. -/
def buildProps (t : JSObj) : List String → Except String (List (String × FakeProp))
  | [] => .ok []
  | k :: rest =>
      match buildProp t k with
      | .error e => .error e
      | .ok fp? =>
          match buildProps t rest with
          | .error e => .error e
          | .ok ps =>
              match fp? with
              | some fp => .ok ((k, fp) :: ps)
              | none => .ok ps

/-- fake(template) from lib/leche.js: createObject(template) links the
template as prototype, then the for…in loop installs a replacement
member per visited key. -/
def fake (t : JSObj) : Except String Fake :=
  match buildProps t (forInKeys t) with
  | .error e => .error e
  | .ok props => .ok ⟨props, t⟩

/-- Reading fake[key]: an own plain data member yields its value, an
own guarded member runs the installed getter (the stored value once
propertyIsSet, otherwise the unexpected-use error), and otherwise the
read resolves through the template chain. -/
def fakeGet (f : Fake) (key : String) : Except String Value :=
  match findProp f.own key with
  | some (.dataP v) => .ok v
  | some (.guarded isSet v) =>
      if isSet then .ok v else .error (unexpectedUseMsg key)
  | none => getProp f.template key

/-- Assigning fake[key] = v after construction: an own plain data
member (writable) is overwritten; an own guarded member runs the
installed setter, which records the value and propertyIsSet = true and
never throws; an absent own member follows ordinary strict-mode
assignment through the template chain. -/
def fakeSet (f : Fake) (key : String) (v : Value) : Except String Fake :=
  match findProp f.own key with
  | some (.dataP _) => .ok ⟨setAssoc f.own key (.dataP v), f.template⟩
  | some (.guarded _ _) => .ok ⟨setAssoc f.own key (.guarded true v), f.template⟩
  | none =>
      match assignThroughChain f.template.chain key v with
      | .error e => .error e
      | .ok none => .ok f
      | .ok (some fp) => .ok ⟨f.own ++ [(key, fp)], f.template⟩

/-- Calling fake[key](args): read the member, then call it. -/
def fakeCall (f : Fake) (key : String) (args : List Value) : Except String Value :=
  match fakeGet f key with
  | .error e => .error e
  | .ok v => callFn v args

/-- The JavaScript in operator on a fake: the key is an own member or
resolves somewhere along the template chain. -/
def inFake (f : Fake) (key : String) : Bool :=
  (findProp f.own key).isSome || (findDescr f.template.chain key).isSome

/-- Object.prototype.isPrototypeOf for the pair the claims use:
createObject gives the fake the template as its direct prototype, so
the template is in the fake's ancestry exactly when the fake's
prototype link is the template. -/
def isPrototypeOfFake (t : JSObj) (f : Fake) : Prop :=
  f.template = t

mutual

/-- The string an element contributes to Array.prototype.join: null
and undefined contribute the empty string, other values their
standard string conversion; nested arrays join recursively. -/
def arrElemStr : Value → String
  | Value.undef => ""
  | .vnull => ""
  | .vbool b => cond b "true" "false"
  | .vnum n => toString n
  | .vstr s => s
  | .vobj _ => "[object Object]"
  | .varr items => String.intercalate "," (arrElemStrList items)
  | .vfnReturns _ => "function () \x7b\x7d"
  | .vfnThrows _ => "function () \x7b\x7d"

/-- Pointwise arrElemStr over a list of elements. -/
def arrElemStrList : List Value → List String
  | [] => []
  | x :: rest => arrElemStr x :: arrElemStrList rest

end

/-- object.toString(): throws a TypeError on null and undefined,
joins arrays with commas, tags plain objects as [object Object], and
converts primitives natively. -/
def jsToStr : Value → Except String String
  | Value.undef => .error "TypeError: Cannot read property toString of undefined"
  | .vnull => .error "TypeError: Cannot read property toString of null"
  | .vbool b => .ok (cond b "true" "false")
  | .vnum n => .ok (toString n)
  | .vstr s => .ok s
  | .vobj _ => .ok "[object Object]"
  | .varr items => .ok (String.intercalate "," (arrElemStrList items))
  | .vfnReturns _ => .ok "function () \x7b\x7d"
  | .vfnThrows _ => .ok "function () \x7b\x7d"

/-- JSON.stringify as far as truncatedJSONStringify observes it.  The
site is only reached for values whose toString gave [object Object];
opaque plain objects serialise as an empty object literal. -/
def jsonStringify : Value → String
  | Value.undef => "undefined"
  | .vnull => "null"
  | .vbool b => cond b "true" "false"
  | .vnum n => toString n
  | .vstr s => "\"" ++ s ++ "\""
  | .vobj _ => "\x7b\x7d"
  | .varr _ => "[]"
  | .vfnReturns _ => "undefined"
  | .vfnThrows _ => "undefined"

/-- truncatedJSONStringify(object, maxLen) from lib/leche.js. -/
def truncatedJSONStringify (v : Value) (maxLen : Nat) : String :=
  (jsonStringify v).take maxLen

/-- The object.map over array items inside stringifyObject,
propagating the first thrown error, with the per-item stringifier
passed in. -/
def stringifyListGiven (f : Value → Except String String) :
    List Value → Except String (List String)
  | [] => .ok []
  | x :: rest =>
      match f x with
      | .error e => .error e
      | .ok s =>
          match stringifyListGiven f rest with
          | .error e => .error e
          | .ok ss => .ok (s :: ss)

/-- The non-array arm of stringifyObject: fall back to truncated JSON
for values whose toString gave the generic object tag, otherwise keep
the toString representation.  Never throws. -/
def stringifyBase (v : Value) (stringRepresentation : String) :
    Except String String :=
  if stringRepresentation = "[object Object]" then
    .ok (truncatedJSONStringify v 30)
  else
    .ok stringRepresentation

/-- The body of stringifyObject when maxDepth is exhausted: only the
toString representation and the plain-object fallback, no recursion
into array items. -/
def stringifyDepthZero (v : Value) : Except String String :=
  match jsToStr v with
  | .error e => .error e
  | .ok stringRepresentation => stringifyBase v stringRepresentation

/-- The body of stringifyObject with depth remaining: arrays map the
recursive stringifier (passed in as recur) over their items and join;
everything else behaves as at depth zero. -/
def stringifyWithDepth (recur : Value → Except String String) (v : Value) :
    Except String String :=
  match jsToStr v with
  | .error e => .error e
  | .ok stringRepresentation =>
      match v with
      | .varr items =>
          match stringifyListGiven recur items with
          | .error e => .error e
          | .ok strs => .ok (String.intercalate "," strs)
      | _ => stringifyBase v stringRepresentation

/-- stringifyObject(object, maxDepth) from lib/leche.js: take the
toString representation (which can throw); for arrays with remaining
depth (object instanceof Array and maxDepth greater than zero)
stringify items recursively and join; for plain objects fall back to
truncated JSON; otherwise keep the toString representation. -/
def stringifyObject : Value → Nat → Except String String
  | v, 0 => stringifyDepthZero v
  | v, d + 1 => stringifyWithDepth (fun x => stringifyObject x d) v

/-- The loop body of createNamedDataset: result[stringifyObject(item, 1)]
= item, in array order, later duplicate names overwriting earlier
values while keeping first-insertion key order. -/
def createNamedDatasetAux (acc : List (String × Value)) :
    List Value → Except String (List (String × Value))
  | [] => .ok acc
  | item :: rest =>
      match stringifyObject item 1 with
      | .error e => .error e
      | .ok key => createNamedDatasetAux (setAssoc acc key item) rest

/-- createNamedDataset(array) from lib/leche.js. -/
def createNamedDataset (items : List Value) :
    Except String (List (String × Value)) :=
  createNamedDatasetAux [] items

/-- The first argument of withData, by its JavaScript shape: null, a
non-object primitive or function (carrying its typeof string), a plain
object mapping, or an array. -/
inductive WithDataArg where
  | nullArg
  | nonObject (typeName : String)
  | plainObj (entries : List (String × Value))
  | arr (items : List Value)

/-- The error withData throws on a missing, null, non-object or
empty-array dataset. -/
def invalidDatasetMsg : String :=
  "First argument must be an object or non-empty array."

/-- The argument list a dataset entry contributes to the registered
test: arrays spread, any other value is wrapped singly. -/
def argsOf : Value → List Value
  | .varr items => items
  | v => [v]

/-- The describe registrations the for…in loop of withData performs:
one sub-test per dataset name, labelled with the name. -/
def registerTests (named : List (String × Value)) : List (String × List Value) :=
  named.map (fun e => ("with " ++ e.1, argsOf e.2))

/-- withData(dataset, testFunction) from lib/leche.js, returning the
registered sub-tests (label and spread arguments).  Non-objects and
null are rejected first; arrays must be non-empty and are normalised
through createNamedDataset; plain objects register one sub-test per
own name. -/
def withData : WithDataArg → Except String (List (String × List Value))
  | .nonObject _ => .error invalidDatasetMsg
  | .nullArg => .error invalidDatasetMsg
  | .plainObj entries => .ok (registerTests entries)
  | .arr items =>
      if items.length ≠ 0 then
        match createNamedDataset items with
        | .error e => .error e
        | .ok named => .ok (registerTests named)
      else .error invalidDatasetMsg

/-- noop from lib/leche.js: a function body that does nothing, hence
returns undefined. -/
def noop : Value := .vfnReturns Value.undef

/-- create(methods) from lib/leche.js: an object carrying the given
method names, each bound to the shared noop. -/
def create (methods : List String) : List (String × Value) :=
  methods.map (fun m => (m, noop))

/-- A template whose only member is an accessor property data whose
getter dereferences a missing field, as in the accessor scenario of
the tests. -/
def accessorTemplate : JSObj :=
  ⟨[[("data", .accessorD
      (some (.vfnThrows "TypeError: Cannot read property bar of undefined"))
      none)]]⟩

/-- The fake that fake accessorTemplate builds. -/
def accessorFake : Fake := ⟨[("data", .dataP Value.undef)], accessorTemplate⟩

/-- The plain-data template of the tests: name bound to the string
leche. -/
def nameTemplate : JSObj := ⟨[[("name", .dataD (.vstr "leche"))]]⟩

/-- The fake that fake nameTemplate builds. -/
def nameFake : Fake := ⟨[("name", .guarded false Value.undef)], nameTemplate⟩

/-- A template carrying one own method m. -/
def methodTemplate : JSObj := ⟨[[("m", .dataD (.vfnReturns (.vbool true)))]]⟩

/-- The fake that fake methodTemplate builds. -/
def methodFake : Fake :=
  ⟨[("m", .dataP (.vfnThrows (unexpectedCallMsg "m")))], methodTemplate⟩

/-- A template with no own members whose prototype carries the method
m, as built by Object.create over a method-bearing object. -/
def protoMethodTemplate : JSObj :=
  ⟨[[], [("m", .dataD (.vfnReturns (.vbool true)))]]⟩

/-- The fake that fake protoMethodTemplate builds. -/
def protoMethodFake : Fake :=
  ⟨[("m", .dataP (.vfnThrows (unexpectedCallMsg "m")))], protoMethodTemplate⟩

/-- A template with no own members whose prototype carries the
non-callable data property version. -/
def protoDataTemplate : JSObj :=
  ⟨[[], [("version", .dataD (.vnum 5))]]⟩

/-- The fake that fake protoDataTemplate builds. -/
def protoDataFake : Fake := ⟨[("version", .dataP Value.undef)], protoDataTemplate⟩

/-- A template with two own plain data properties a and b. -/
def pairTemplate : JSObj :=
  ⟨[[("a", .dataD (.vnum 1)), ("b", .dataD (.vnum 2))]]⟩

/-- The fake that fake pairTemplate builds: two independent guarded
slots. -/
def pairFake : Fake :=
  ⟨[("a", .guarded false Value.undef), ("b", .guarded false Value.undef)], pairTemplate⟩

/-- pairFake after writing 7 to slot a. -/
def pairFakeA : Fake :=
  ⟨[("a", .guarded true (.vnum 7)), ("b", .guarded false Value.undef)], pairTemplate⟩

theorem findProp_setAssoc_self {α : Type} (m : List (String × α)) (key : String)
    (nv : α) : findProp (setAssoc m key nv) key = some nv := by
  induction m with
  | nil => simp [setAssoc, findProp]
  | cons kv rest ih =>
      obtain ⟨k, v⟩ := kv
      by_cases hk : k = key
      · simp [setAssoc, hk, findProp]
      · simp [setAssoc, hk, findProp, ih]

theorem findProp_setAssoc_ne {α : Type} (m : List (String × α)) (key k : String)
    (nv : α) (h : k ≠ key) :
    findProp (setAssoc m key nv) k = findProp m k := by
  induction m with
  | nil => simp [setAssoc, findProp, Ne.symm h]
  | cons kv rest ih =>
      obtain ⟨k', v⟩ := kv
      by_cases hk : k' = key
      · subst hk
        simp [setAssoc, findProp, Ne.symm h]
      · simp only [setAssoc, if_neg hk, findProp]
        by_cases hk2 : k' = k
        · simp [hk2]
        · simp [hk2, ih]

theorem findProp_append_ne {α : Type} (m : List (String × α)) (key k : String)
    (fp : α) (h : k ≠ key) :
    findProp (m ++ [(key, fp)]) k = findProp m k := by
  induction m with
  | nil => simp [findProp, Ne.symm h]
  | cons kv rest ih =>
      obtain ⟨k', v⟩ := kv
      by_cases hk : k' = k
      · simp [findProp, hk]
      · simp [findProp, hk, ih]

theorem mem_keys_of_findProp {α : Type} {m : List (String × α)} {key : String}
    {d : α} (h : findProp m key = some d) : key ∈ m.map Prod.fst := by
  induction m with
  | nil => simp [findProp] at h
  | cons kv rest ih =>
      obtain ⟨k, v⟩ := kv
      by_cases hk : k = key
      · simp [hk]
      · simp only [findProp, if_neg hk] at h
        simp [ih h]

theorem findProp_isSome_of_mem {α : Type} {m : List (String × α)} {key : String}
    (h : key ∈ m.map Prod.fst) : (findProp m key).isSome = true := by
  induction m with
  | nil => simp at h
  | cons kv rest ih =>
      obtain ⟨k, v⟩ := kv
      by_cases hk : k = key
      · simp [findProp, hk]
      · simp only [List.map_cons, List.mem_cons] at h
        rcases h with h | h
        · exact absurd h.symm hk
        · simp [findProp, hk, ih h]

theorem mem_dedupFirstAux {seen l : List String} {a : String}
    (hl : a ∈ l) (hs : a ∉ seen) : a ∈ dedupFirstAux seen l := by
  induction l generalizing seen with
  | nil => simp at hl
  | cons k rest ih =>
      rcases List.mem_cons.mp hl with h | h
      · subst h
        by_cases hk : a ∈ seen
        · exact absurd hk hs
        · simp [dedupFirstAux, hk]
      · by_cases hk : k ∈ seen
        · simpa [dedupFirstAux, hk] using ih h hs
        · simp only [dedupFirstAux, if_neg hk, List.mem_cons]
          by_cases hak : a = k
          · exact Or.inl hak
          · refine Or.inr (ih h ?_)
            simp [hak, hs]

theorem mem_of_mem_dedupFirstAux {seen l : List String} {a : String}
    (h : a ∈ dedupFirstAux seen l) : a ∈ l := by
  induction l generalizing seen with
  | nil => simp [dedupFirstAux] at h
  | cons k rest ih =>
      by_cases hk : k ∈ seen
      · simp only [dedupFirstAux, if_pos hk] at h
        exact List.mem_cons_of_mem _ (ih h)
      · simp only [dedupFirstAux, if_neg hk, List.mem_cons] at h
        rcases h with h | h
        · simp [h]
        · exact List.mem_cons_of_mem _ (ih h)

theorem mem_dedupFirst {l : List String} {a : String} (h : a ∈ l) :
    a ∈ dedupFirst l :=
  mem_dedupFirstAux h (by simp)

theorem findDescr_isSome_of_mem {chain : List PropMap} {k : String}
    (h : k ∈ (chain.map (fun m => m.map Prod.fst)).flatten) :
    (findDescr chain k).isSome = true := by
  induction chain with
  | nil => simp at h
  | cons m rest ih =>
      simp only [List.map_cons, List.flatten_cons, List.mem_append] at h
      rcases h with h | h
      · have := findProp_isSome_of_mem h
        cases hf : findProp m k with
        | none => simp [hf] at this
        | some d => simp [findDescr, hf]
      · cases hf : findProp m k with
        | none => simpa [findDescr, hf] using ih h
        | some d => simp [findDescr, hf]

theorem mem_flatten_of_findDescr {chain : List PropMap} {k : String} {d : Descr}
    (h : findDescr chain k = some d) :
    k ∈ (chain.map (fun m => m.map Prod.fst)).flatten := by
  induction chain with
  | nil => simp [findDescr] at h
  | cons m rest ih =>
      simp only [List.map_cons, List.flatten_cons, List.mem_append]
      cases hf : findProp m k with
      | none =>
          simp only [findDescr, hf] at h
          exact Or.inr (ih h)
      | some d0 => exact Or.inl (mem_keys_of_findProp hf)

theorem mem_forInKeys_of_findDescr {t : JSObj} {key : String} {d : Descr}
    (h : findDescr t.chain key = some d) : key ∈ forInKeys t :=
  mem_dedupFirst (mem_flatten_of_findDescr h)

theorem findDescr_of_own {t : JSObj} {key : String} {d : Descr}
    (h : getOwnPropertyDescriptor t key = some d) :
    findDescr t.chain key = some d := by
  cases hc : t.chain with
  | nil => simp [getOwnPropertyDescriptor, hc] at h
  | cons m rest =>
      simp only [getOwnPropertyDescriptor, hc] at h
      simp [findDescr, hc, h]

theorem mem_forInKeys_of_own {t : JSObj} {key : String} {d : Descr}
    (h : getOwnPropertyDescriptor t key = some d) : key ∈ forInKeys t :=
  mem_forInKeys_of_findDescr (findDescr_of_own h)

theorem getProp_of_findDescr_data {t : JSObj} {key : String} {v : Value}
    (h : findDescr t.chain key = some (.dataD v)) : getProp t key = .ok v := by
  simp [getProp, h]

theorem assignThroughChain_data {chain : List PropMap} {key : String} {w : Value}
    (v : Value) (h : findDescr chain key = some (.dataD w)) :
    assignThroughChain chain key v = .ok (some (.dataP v)) := by
  simp [assignThroughChain, h]

theorem buildProp_of_accessor {t : JSObj} {key : String}
    (h : isAccessorProperty t key = true) :
    buildProp t key = .ok (some (.dataP Value.undef)) := by
  simp [buildProp, h]

theorem not_accessor_of_own_data {t : JSObj} {key : String} {v : Value}
    (h : getOwnPropertyDescriptor t key = some (.dataD v)) :
    isAccessorProperty t key = false := by
  simp [isAccessorProperty, h]

theorem es5_of_own_data {t : JSObj} {key : String} {v : Value}
    (h : getOwnPropertyDescriptor t key = some (.dataD v))
    (hf : v.isFunction = false) : isES5DataProperty t key = true := by
  simp [isES5DataProperty, h, hf]

theorem buildProp_of_es5_data {t : JSObj} {key : String} {v : Value}
    (h : getOwnPropertyDescriptor t key = some (.dataD v))
    (hf : v.isFunction = false) :
    buildProp t key = .ok (some (.guarded false Value.undef)) := by
  simp [buildProp, not_accessor_of_own_data h, es5_of_own_data h hf]

theorem own_data_or_none_of_findDescr_data {t : JSObj} {key : String} {v : Value}
    (h : findDescr t.chain key = some (.dataD v)) :
    getOwnPropertyDescriptor t key = some (.dataD v) ∨
      getOwnPropertyDescriptor t key = none := by
  cases hc : t.chain with
  | nil => simp [findDescr, hc] at h
  | cons m rest =>
      simp only [findDescr, hc] at h
      cases hm : findProp m key with
      | none => simp [getOwnPropertyDescriptor, hc, hm]
      | some d =>
          simp only [hm] at h
          simp [getOwnPropertyDescriptor, hc, hm, h]

theorem buildProp_of_method {t : JSObj} {key : String} {v : Value}
    (h : findDescr t.chain key = some (.dataD v)) (hf : v.isFunction = true) :
    buildProp t key = .ok (some (.dataP (.vfnThrows (unexpectedCallMsg key)))) := by
  have hacc : isAccessorProperty t key = false := by
    rcases own_data_or_none_of_findDescr_data h with ho | ho <;>
      simp [isAccessorProperty, ho]
  have hes5 : isES5DataProperty t key = false := by
    rcases own_data_or_none_of_findDescr_data h with ho | ho <;>
      simp [isES5DataProperty, ho, hf]
  simp [buildProp, hacc, hes5, isES3DataProperty, getProp_of_findDescr_data h, hf,
    assignThroughChain_data _ h]

theorem buildProp_of_plain_data_fallback {t : JSObj} {key : String} {v : Value}
    (hown : getOwnPropertyDescriptor t key = none)
    (h : findDescr t.chain key = some (.dataD v)) (hf : v.isFunction = false) :
    buildProp t key = .ok (some (.dataP Value.undef)) := by
  have hacc : isAccessorProperty t key = false := by simp [isAccessorProperty, hown]
  have hes5 : isES5DataProperty t key = false := by simp [isES5DataProperty, hown]
  simp [buildProp, hacc, hes5, isES3DataProperty, getProp_of_findDescr_data h, hf,
    assignThroughChain_data _ h]

theorem buildProps_findProp {t : JSObj} {key : String} {fp : FakeProp} :
    ∀ {keys : List String} {props : List (String × FakeProp)},
    buildProps t keys = .ok props → key ∈ keys →
    buildProp t key = .ok (some fp) → findProp props key = some fp := by
  intro keys
  induction keys with
  | nil => intro props _ hmem; simp at hmem
  | cons k rest ih =>
      intro props hb hmem hbp
      simp only [buildProps] at hb
      cases hk : buildProp t k with
      | error e => simp [hk] at hb
      | ok fpk =>
          simp only [hk] at hb
          cases hr : buildProps t rest with
          | error e => simp [hr] at hb
          | ok ps =>
              simp only [hr] at hb
              by_cases hkey : k = key
              · subst hkey
                rw [hk] at hbp
                simp only [Except.ok.injEq] at hbp
                subst hbp
                simp only [Except.ok.injEq] at hb
                subst hb
                simp [findProp]
              · have hmem2 : key ∈ rest := by
                  rcases List.mem_cons.mp hmem with h | h
                  · exact absurd h.symm hkey
                  · exact h
                cases fpk with
                | none =>
                    simp only [Except.ok.injEq] at hb
                    cases hb
                    exact ih hr hmem2 hbp
                | some g =>
                    simp only [Except.ok.injEq] at hb
                    cases hb
                    simp only [findProp, if_neg hkey]
                    exact ih hr hmem2 hbp

theorem fake_template_eq {t : JSObj} {f : Fake} (hb : fake t = .ok f) :
    f.template = t := by
  simp only [fake] at hb
  cases hp : buildProps t (forInKeys t) with
  | error e => simp [hp] at hb
  | ok props =>
      simp only [hp, Except.ok.injEq] at hb
      cases hb
      rfl

theorem jsToStr_error {v : Value} {e : String} (h : jsToStr v = .error e) :
    e = "TypeError: Cannot read property toString of undefined" ∨
    e = "TypeError: Cannot read property toString of null" := by
  cases v with
  | undef =>
      simp only [jsToStr, Except.error.injEq] at h
      exact Or.inl h.symm
  | vnull =>
      simp only [jsToStr, Except.error.injEq] at h
      exact Or.inr h.symm
  | vbool b => simp [jsToStr] at h
  | vnum n => simp [jsToStr] at h
  | vstr s => simp [jsToStr] at h
  | vobj i => simp [jsToStr] at h
  | varr items => simp [jsToStr] at h
  | vfnReturns w => simp [jsToStr] at h
  | vfnThrows m => simp [jsToStr] at h

theorem stringifyBase_ne_error (v : Value) (rep e : String) :
    stringifyBase v rep ≠ .error e := by
  simp only [stringifyBase]
  split <;> simp

theorem stringifyListGiven_error {f : Value → Except String String}
    {P : String → Prop} (hf : ∀ x e, f x = .error e → P e) :
    ∀ {items : List Value} {e : String},
      stringifyListGiven f items = .error e → P e := by
  intro items
  induction items with
  | nil => intro e h; simp [stringifyListGiven] at h
  | cons x rest ih =>
      intro e h
      simp only [stringifyListGiven] at h
      cases hx : f x with
      | error e0 =>
          simp only [hx, Except.error.injEq] at h
          subst h
          exact hf x e0 hx
      | ok s =>
          simp only [hx] at h
          cases hrest : stringifyListGiven f rest with
          | error e1 =>
              simp only [hrest, Except.error.injEq] at h
              subst h
              exact ih hrest
          | ok ss => simp [hrest] at h

theorem stringifyDepthZero_error {v : Value} {e : String}
    (h : stringifyDepthZero v = .error e) :
    e = "TypeError: Cannot read property toString of undefined" ∨
    e = "TypeError: Cannot read property toString of null" := by
  simp only [stringifyDepthZero] at h
  cases hj : jsToStr v with
  | error e0 =>
      simp only [hj, Except.error.injEq] at h
      subst h
      exact jsToStr_error hj
  | ok rep =>
      simp only [hj] at h
      exact absurd h (stringifyBase_ne_error _ _ _)

theorem stringifyWithDepth_error {recur : Value → Except String String}
    (hrec : ∀ x e, recur x = .error e →
      (e = "TypeError: Cannot read property toString of undefined" ∨
       e = "TypeError: Cannot read property toString of null"))
    {v : Value} {e : String} (h : stringifyWithDepth recur v = .error e) :
    e = "TypeError: Cannot read property toString of undefined" ∨
    e = "TypeError: Cannot read property toString of null" := by
  simp only [stringifyWithDepth] at h
  cases hj : jsToStr v with
  | error e0 =>
      simp only [hj, Except.error.injEq] at h
      subst h
      exact jsToStr_error hj
  | ok rep =>
      simp only [hj] at h
      cases v with
      | varr items =>
          cases hl : stringifyListGiven recur items with
          | error e1 =>
              simp only [hl, Except.error.injEq] at h
              subst h
              exact stringifyListGiven_error hrec hl
          | ok strs => simp [hl] at h
      | undef => exact absurd h (stringifyBase_ne_error _ _ _)
      | vnull => exact absurd h (stringifyBase_ne_error _ _ _)
      | vbool b => exact absurd h (stringifyBase_ne_error _ _ _)
      | vnum n => exact absurd h (stringifyBase_ne_error _ _ _)
      | vstr s => exact absurd h (stringifyBase_ne_error _ _ _)
      | vobj i => exact absurd h (stringifyBase_ne_error _ _ _)
      | vfnReturns w => exact absurd h (stringifyBase_ne_error _ _ _)
      | vfnThrows m => exact absurd h (stringifyBase_ne_error _ _ _)

theorem stringifyObject_error :
    ∀ (d : Nat) {v : Value} {e : String}, stringifyObject v d = .error e →
      e = "TypeError: Cannot read property toString of undefined" ∨
      e = "TypeError: Cannot read property toString of null" := by
  intro d
  induction d with
  | zero => intro v e h; exact stringifyDepthZero_error h
  | succ d0 ih => intro v e h; exact stringifyWithDepth_error (fun x e hx => ih hx) h

theorem createNamedDatasetAux_error :
    ∀ {items : List Value} {acc : List (String × Value)} {e : String},
      createNamedDatasetAux acc items = .error e →
      e = "TypeError: Cannot read property toString of undefined" ∨
      e = "TypeError: Cannot read property toString of null" := by
  intro items
  induction items with
  | nil => intro acc e h; simp [createNamedDatasetAux] at h
  | cons item rest ih =>
      intro acc e h
      simp only [createNamedDatasetAux] at h
      cases hs : stringifyObject item 1 with
      | error e0 =>
          simp only [hs, Except.error.injEq] at h
          subst h
          exact stringifyObject_error 1 hs
      | ok key =>
          simp only [hs] at h
          exact ih h

theorem fake_findProp {t : JSObj} {f : Fake} {key : String} {fp : FakeProp}
    (hb : fake t = .ok f) (hmem : key ∈ forInKeys t)
    (hbp : buildProp t key = .ok (some fp)) : findProp f.own key = some fp := by
  simp only [fake] at hb
  cases hp : buildProps t (forInKeys t) with
  | error e => simp [hp] at hb
  | ok props =>
      simp only [hp, Except.ok.injEq] at hb
      cases hb
      exact buildProps_findProp hp hmem hbp

/-- C1 counterexample: the claim says that on a template whose only
member is the accessor property data, reading fake.data before any
assignment throws the UnexpectedPropertyUse error.  On the code it
does not: the accessor branch of fake() installs a plain writable data
property with value undefined, so the unassigned read returns
undefined and throws nothing. -/
theorem accessor_slot_claim_counterexample :
    fake accessorTemplate = .ok accessorFake ∧
    inFake accessorFake "data" = true ∧
    fakeGet accessorFake "data" = .ok Value.undef ∧
    fakeGet accessorFake "data" ≠ .error (unexpectedUseMsg "data") := by
  refine ⟨rfl, rfl, rfl, ?_⟩
  intro h
  rw [show fakeGet accessorFake "data" = Except.ok Value.undef from rfl] at h
  exact Except.noConfusion h

/-- C1 (amended): for every template with an own accessor property,
the fake carries a same-named own member ("key in fake" is true),
reading it before any assignment does not execute the template's
original getter — the result is ok undefined for every getter,
including one whose call throws — and that unassigned read returns
undefined without throwing any error (a plain writable data slot, not
the guarded no-value state). -/
theorem fake_accessor_key_plain_undef (t : JSObj) (f : Fake) (key : String)
    (hacc : isAccessorProperty t key = true) (hb : fake t = .ok f) :
    inFake f key = true ∧
    findProp f.own key = some (.dataP Value.undef) ∧
    fakeGet f key = .ok Value.undef := by
  obtain ⟨g, s, ho⟩ : ∃ g s,
      getOwnPropertyDescriptor t key = some (.accessorD g s) := by
    cases ho : getOwnPropertyDescriptor t key with
    | none => simp [isAccessorProperty, ho] at hacc
    | some d =>
        cases d with
        | dataD v => simp [isAccessorProperty, ho] at hacc
        | accessorD g s => exact ⟨g, s, rfl⟩
  have hfp := fake_findProp hb (mem_forInKeys_of_own ho)
    (buildProp_of_accessor hacc)
  exact ⟨by simp [inFake, hfp], hfp, by simp [fakeGet, hfp]⟩

/-- Witness for C1 (amended) at the concrete accessor template. -/
theorem fake_accessor_key_plain_undef_witness :
    isAccessorProperty accessorTemplate "data" = true ∧
    fake accessorTemplate = .ok accessorFake ∧
    (inFake accessorFake "data" = true ∧
     findProp accessorFake.own "data" = some (.dataP Value.undef) ∧
     fakeGet accessorFake "data" = .ok Value.undef) :=
  ⟨rfl, rfl,
    fake_accessor_key_plain_undef accessorTemplate accessorFake "data" rfl rfl⟩

/-- C2: for every template with an own non-callable data property, the
fake receives a guarded slot that starts unassigned, and reading it
before any write throws the error "Unexpected use of property ..."
naming that property.  Reads do not change the fake (fakeGet returns
no new state), so the same error recurs on every read until a write
occurs. -/
theorem fake_unassigned_data_read_throws (t : JSObj) (f : Fake) (key : String)
    (v : Value) (hown : getOwnPropertyDescriptor t key = some (.dataD v))
    (hnf : v.isFunction = false) (hb : fake t = .ok f) :
    findProp f.own key = some (.guarded false Value.undef) ∧
    fakeGet f key = .error (unexpectedUseMsg key) := by
  have hfp := fake_findProp hb (mem_forInKeys_of_own hown)
    (buildProp_of_es5_data hown hnf)
  exact ⟨hfp, by simp [fakeGet, hfp]⟩

/-- Witness for C2 at the plain-data template of the tests. -/
theorem fake_unassigned_data_read_throws_witness :
    getOwnPropertyDescriptor nameTemplate "name" = some (.dataD (.vstr "leche")) ∧
    (Value.vstr "leche").isFunction = false ∧
    fake nameTemplate = .ok nameFake ∧
    (findProp nameFake.own "name" = some (.guarded false Value.undef) ∧
     fakeGet nameFake "name" = .error (unexpectedUseMsg "name")) :=
  ⟨rfl, rfl, rfl,
    fake_unassigned_data_read_throws nameTemplate nameFake "name"
      (.vstr "leche") rfl rfl rfl⟩

/-- C3: for every guarded data slot on a fake and every value,
assignment never throws, a subsequent read returns exactly the written
value, and after a second write the read returns the second value;
no UnexpectedPropertyUse error is raised once a write has occurred. -/
theorem guarded_slot_write_read (f : Fake) (key : String) (b : Bool) (w : Value)
    (hslot : findProp f.own key = some (.guarded b w)) (v1 v2 : Value) :
    ∃ f1 f2,
      fakeSet f key v1 = .ok f1 ∧ fakeGet f1 key = .ok v1 ∧
      fakeSet f1 key v2 = .ok f2 ∧ fakeGet f2 key = .ok v2 := by
  refine ⟨⟨setAssoc f.own key (.guarded true v1), f.template⟩,
    ⟨setAssoc (setAssoc f.own key (.guarded true v1)) key (.guarded true v2),
      f.template⟩, ?_, ?_, ?_, ?_⟩
  · simp [fakeSet, hslot]
  · simp [fakeGet, findProp_setAssoc_self]
  · simp [fakeSet, findProp_setAssoc_self]
  · simp [fakeGet, findProp_setAssoc_self]

/-- Witness for C3: write 0 then undefined to the guarded name slot;
each write succeeds and each read returns the value just written. -/
theorem guarded_slot_write_read_witness :
    findProp nameFake.own "name" = some (.guarded false Value.undef) ∧
    (∃ f1 f2,
      fakeSet nameFake "name" (.vnum 0) = .ok f1 ∧
      fakeGet f1 "name" = .ok (.vnum 0) ∧
      fakeSet f1 "name" Value.undef = .ok f2 ∧
      fakeGet f2 "name" = .ok Value.undef) :=
  ⟨rfl, guarded_slot_write_read nameFake "name" false Value.undef rfl (.vnum 0) Value.undef⟩

/-- C4: for every template property that resolves through the chain
to a method (a data descriptor holding a callable, own or inherited),
the fake's same-named member is itself a callable, and invoking it
with any arguments — the guarded function ignores them, so this holds
for every argument list and every repetition — throws the error
naming the method. -/
theorem fake_method_call_throws (t : JSObj) (f : Fake) (key : String)
    (v : Value) (hm : findDescr t.chain key = some (.dataD v))
    (hfn : v.isFunction = true) (hb : fake t = .ok f) (args : List Value) :
    fakeGet f key = .ok (.vfnThrows (unexpectedCallMsg key)) ∧
    (Value.vfnThrows (unexpectedCallMsg key)).isFunction = true ∧
    fakeCall f key args = .error (unexpectedCallMsg key) := by
  have hfp := fake_findProp hb (mem_forInKeys_of_findDescr hm)
    (buildProp_of_method hm hfn)
  exact ⟨by simp [fakeGet, hfp], rfl,
    by simp [fakeCall, fakeGet, hfp, callFn]⟩

/-- Witness for C4 at a one-method template, called with arguments. -/
theorem fake_method_call_throws_witness :
    findDescr methodTemplate.chain "m" =
      some (.dataD (.vfnReturns (.vbool true))) ∧
    (Value.vfnReturns (.vbool true)).isFunction = true ∧
    fake methodTemplate = .ok methodFake ∧
    (fakeGet methodFake "m" = .ok (.vfnThrows (unexpectedCallMsg "m")) ∧
     (Value.vfnThrows (unexpectedCallMsg "m")).isFunction = true ∧
     fakeCall methodFake "m" [.vnum 42, .vstr "x"] =
       .error (unexpectedCallMsg "m")) :=
  ⟨rfl, rfl, rfl,
    fake_method_call_throws methodTemplate methodFake "m"
      (.vfnReturns (.vbool true)) rfl rfl rfl [.vnum 42, .vstr "x"]⟩

/-- C5: a template whose method is reachable only through its
prototype chain (no own binding) is still covered: the fake receives
an own guarded replacement for it, calling it throws the
guarded-method error naming it, and every key enumerable through the
template's ancestry is present on the fake (the in operator answers
true), with no silent omissions. -/
theorem fake_inherited_members_covered (t : JSObj) (f : Fake) (key : String)
    (v : Value) (ownProps : PropMap) (protoChain : List PropMap)
    (hchain : t.chain = ownProps :: protoChain)
    (hnotown : findProp ownProps key = none)
    (hinh : findDescr protoChain key = some (.dataD v))
    (hfn : v.isFunction = true) (hb : fake t = .ok f) (args : List Value) :
    findProp f.own key = some (.dataP (.vfnThrows (unexpectedCallMsg key))) ∧
    fakeCall f key args = .error (unexpectedCallMsg key) ∧
    ∀ k, k ∈ forInKeys t → inFake f k = true := by
  have hfd : findDescr t.chain key = some (.dataD v) := by
    rw [hchain]
    simp [findDescr, hnotown, hinh]
  have hfp := fake_findProp hb (mem_forInKeys_of_findDescr hfd)
    (buildProp_of_method hfd hfn)
  refine ⟨hfp, by simp [fakeCall, fakeGet, hfp, callFn], ?_⟩
  intro k hk
  have hk2 : k ∈ (t.chain.map (fun m => m.map Prod.fst)).flatten :=
    mem_of_mem_dedupFirstAux hk
  have hds := findDescr_isSome_of_mem hk2
  have ht := fake_template_eq hb
  simp [inFake, ht, hds]

/-- Witness for C5 at a template whose method m lives only on its
prototype. -/
theorem fake_inherited_members_covered_witness :
    protoMethodTemplate.chain = [] :: [[("m", .dataD (.vfnReturns (.vbool true)))]] ∧
    findProp ([] : PropMap) "m" = none ∧
    findDescr [[("m", .dataD (.vfnReturns (.vbool true)))]] "m" =
      some (.dataD (.vfnReturns (.vbool true))) ∧
    (Value.vfnReturns (.vbool true)).isFunction = true ∧
    fake protoMethodTemplate = .ok protoMethodFake ∧
    "m" ∈ forInKeys protoMethodTemplate ∧
    (findProp protoMethodFake.own "m" =
       some (.dataP (.vfnThrows (unexpectedCallMsg "m"))) ∧
     fakeCall protoMethodFake "m" [] = .error (unexpectedCallMsg "m") ∧
     inFake protoMethodFake "m" = true) := by
  have h := fake_inherited_members_covered protoMethodTemplate protoMethodFake
    "m" (.vfnReturns (.vbool true)) []
    [[("m", .dataD (.vfnReturns (.vbool true)))]] rfl rfl rfl rfl rfl []
  exact ⟨rfl, rfl, rfl, rfl, rfl, by decide,
    h.1, h.2.1, h.2.2 "m" (by decide)⟩

/-- C6: the fake built from any template has the template in its
ancestry: createObject links the template as the fake's direct
prototype, so the isPrototypeOf check holds and type checks against
the template answer true. -/
theorem template_isPrototypeOf_fake (t : JSObj) (f : Fake)
    (hb : fake t = .ok f) : isPrototypeOfFake t f :=
  fake_template_eq hb

/-- Witness for C6 at the plain-data template. -/
theorem template_isPrototypeOf_fake_witness :
    fake nameTemplate = .ok nameFake ∧
    isPrototypeOfFake nameTemplate nameFake :=
  ⟨rfl, template_isPrototypeOf_fake nameTemplate nameFake rfl⟩

/-- C7: withData throws the error "First argument must be an object
or non-empty array." exactly when its first argument is null, a
non-object, or an empty array — other inputs either register their
sub-tests or fail with a different error (a TypeError from
stringifying a null or undefined item), never with this message — and
an empty plain-object mapping registers zero sub-tests without any
error. -/
theorem withData_invalid_argument_iff :
    (∀ d, withData d = .error invalidDatasetMsg ↔
      (d = .nullArg ∨ (∃ s, d = .nonObject s) ∨ d = .arr [])) ∧
    withData (.plainObj []) = .ok [] := by
  refine ⟨?_, rfl⟩
  intro d
  cases d with
  | nullArg => exact ⟨fun _ => Or.inl rfl, fun _ => rfl⟩
  | nonObject s => exact ⟨fun _ => Or.inr (Or.inl ⟨s, rfl⟩), fun _ => rfl⟩
  | plainObj entries =>
      constructor
      · intro h
        simp [withData] at h
      · intro h
        rcases h with h | ⟨s, h⟩ | h <;> simp at h
  | arr items =>
      cases items with
      | nil => exact ⟨fun _ => Or.inr (Or.inr rfl), fun _ => rfl⟩
      | cons x rest =>
          constructor
          · intro h
            simp only [withData] at h
            rw [if_pos (by simp)] at h
            cases hcd : createNamedDataset (x :: rest) with
            | ok named => simp [hcd] at h
            | error e =>
                simp only [hcd, Except.error.injEq] at h
                rcases createNamedDatasetAux_error hcd with he | he <;>
                  (rw [h] at he; exact absurd he (by decide))
          · intro h
            rcases h with h | ⟨s, h⟩ | h <;> simp at h

/-- C8: two fakes built from the same template have independent slot
state — in this explicit-state embedding a write to one fake produces
a new fake value and the other is untouched, so its reads still
behave exactly as before the write — and within one fake a write to
one property leaves the read behaviour of every other property
unchanged. -/
theorem fake_slot_state_independent (t : JSObj) (f1 f2 f1' : Fake)
    (key : String) (v : Value) (hb1 : fake t = .ok f1)
    (hb2 : fake t = .ok f2) (hs : fakeSet f1 key v = .ok f1') :
    (∀ q, fakeGet f2 q = fakeGet f1 q) ∧
    (∀ q, q ≠ key → fakeGet f1' q = fakeGet f1 q) := by
  have hff : f2 = f1 := by
    rw [hb1] at hb2
    injection hb2 with h
    exact h.symm
  constructor
  · intro q
    rw [hff]
  · intro q hq
    simp only [fakeSet] at hs
    cases hf : findProp f1.own key with
    | some fp =>
        cases fp with
        | dataP w =>
            simp only [hf, Except.ok.injEq] at hs
            subst hs
            simp only [fakeGet, findProp_setAssoc_ne _ _ _ _ hq]
        | guarded bb ww =>
            simp only [hf, Except.ok.injEq] at hs
            subst hs
            simp only [fakeGet, findProp_setAssoc_ne _ _ _ _ hq]
    | none =>
        simp only [hf] at hs
        cases ha : assignThroughChain f1.template.chain key v with
        | error e => simp [ha] at hs
        | ok fp? =>
            simp only [ha] at hs
            cases fp? with
            | none =>
                simp only [Except.ok.injEq] at hs
                subst hs
                rfl
            | some fp =>
                simp only [Except.ok.injEq] at hs
                subst hs
                simp only [fakeGet, findProp_append_ne _ _ _ _ hq]

/-- Witness for C8: two fakes of the two-slot template; after writing
7 to slot a of the first, slot b of the modified fake and every slot
of the second fake read as before. -/
theorem fake_slot_state_independent_witness :
    fake pairTemplate = .ok pairFake ∧
    fakeSet pairFake "a" (.vnum 7) = .ok pairFakeA ∧
    ("b" : String) ≠ "a" ∧
    fakeGet pairFake "b" = fakeGet pairFake "b" ∧
    fakeGet pairFakeA "b" = fakeGet pairFake "b" :=
  ⟨rfl, rfl, by decide,
    (fake_slot_state_independent pairTemplate pairFake pairFake pairFakeA
      "a" (.vnum 7) rfl rfl rfl).1 "b",
    (fake_slot_state_independent pairTemplate pairFake pairFake pairFakeA
      "a" (.vnum 7) rfl rfl rfl).2 "b" (by decide)⟩

/-- C9: building a fake never mutates the template: the constructed
fake carries the template itself, unchanged, as its prototype, and
every later assignment to the fake leaves that template untouched —
all state lives in the fake's own members. -/
theorem fake_does_not_mutate_template (t : JSObj) (f : Fake)
    (hb : fake t = .ok f) :
    f.template = t ∧ ∀ key v f', fakeSet f key v = .ok f' → f'.template = t := by
  have ht := fake_template_eq hb
  refine ⟨ht, ?_⟩
  intro key v f' hs
  simp only [fakeSet] at hs
  cases hf : findProp f.own key with
  | some fp =>
      cases fp with
      | dataP w =>
          simp only [hf, Except.ok.injEq] at hs
          subst hs
          exact ht
      | guarded bb ww =>
          simp only [hf, Except.ok.injEq] at hs
          subst hs
          exact ht
  | none =>
      simp only [hf] at hs
      cases ha : assignThroughChain f.template.chain key v with
      | error e => simp [ha] at hs
      | ok fp? =>
          simp only [ha] at hs
          cases fp? with
          | none =>
              simp only [Except.ok.injEq] at hs
              subst hs
              exact ht
          | some fp =>
              simp only [Except.ok.injEq] at hs
              subst hs
              exact ht

/-- Witness for C9 at the plain-data template, with a write to the
fake afterwards. -/
theorem fake_does_not_mutate_template_witness :
    fake nameTemplate = .ok nameFake ∧
    nameFake.template = nameTemplate ∧
    fakeSet nameFake "name" (.vstr "box") =
      .ok ⟨[("name", .guarded true (.vstr "box"))], nameTemplate⟩ ∧
    (Fake.mk [("name", .guarded true (.vstr "box"))] nameTemplate).template =
      nameTemplate :=
  ⟨rfl,
    (fake_does_not_mutate_template nameTemplate nameFake rfl).1,
    rfl,
    (fake_does_not_mutate_template nameTemplate nameFake rfl).2 "name"
      (.vstr "box") ⟨[("name", .guarded true (.vstr "box"))], nameTemplate⟩ rfl⟩

/-- C10: a non-callable data property reachable only through the
template's prototype chain is not guarded: even with descriptor
introspection available, the own-descriptor checks fail for it, the
ES3 fallback branch runs, and the fake receives an own plain property
whose value is undefined — reading it before any assignment returns
undefined and never throws. -/
theorem fake_inherited_data_inert_undefined (t : JSObj) (f : Fake)
    (key : String) (v : Value) (ownProps : PropMap) (protoChain : List PropMap)
    (hchain : t.chain = ownProps :: protoChain)
    (hnotown : findProp ownProps key = none)
    (hinh : findDescr protoChain key = some (.dataD v))
    (hnf : v.isFunction = false) (hb : fake t = .ok f) :
    findProp f.own key = some (.dataP Value.undef) ∧
    fakeGet f key = .ok Value.undef := by
  have hfd : findDescr t.chain key = some (.dataD v) := by
    rw [hchain]
    simp [findDescr, hnotown, hinh]
  have hown : getOwnPropertyDescriptor t key = none := by
    simp [getOwnPropertyDescriptor, hchain, hnotown]
  have hfp := fake_findProp hb (mem_forInKeys_of_findDescr hfd)
    (buildProp_of_plain_data_fallback hown hfd hnf)
  exact ⟨hfp, by simp [fakeGet, hfp]⟩

/-- Witness for C10 at a template inheriting the data property
version from its prototype. -/
theorem fake_inherited_data_inert_undefined_witness :
    protoDataTemplate.chain = [] :: [[("version", .dataD (.vnum 5))]] ∧
    findProp ([] : PropMap) "version" = none ∧
    findDescr [[("version", .dataD (.vnum 5))]] "version" =
      some (.dataD (.vnum 5)) ∧
    (Value.vnum 5).isFunction = false ∧
    fake protoDataTemplate = .ok protoDataFake ∧
    (findProp protoDataFake.own "version" = some (.dataP Value.undef) ∧
     fakeGet protoDataFake "version" = .ok Value.undef) :=
  ⟨rfl, rfl, rfl, rfl, rfl,
    fake_inherited_data_inert_undefined protoDataTemplate protoDataFake
      "version" (.vnum 5) [] [[("version", .dataD (.vnum 5))]]
      rfl rfl rfl rfl rfl⟩

end Leche
